import Mathlib

set_option maxHeartbeats 1000000
set_option maxRecDepth 100000

/-!
Verification of the Shopify SQL query pipeline (`src/api/query.js`).

The development shallowly embeds the pipeline's JavaScript into Lean:
JavaScript runtime values become the inductive type `Js`, the registered
alasql scalar functions become Lean functions over `Js`, the GraphQL
response flattening `transformToTable` becomes a family of pure functions
on `Js` records, the pagination loop of `fetchShopifyData` becomes an
explicit state-transition system, `detectTablesFromSQL` becomes a
character-level scanner replaying the four regular-expression positions,
and the SQL branch of the request handler becomes a pure function
parameterised by its collaborators (the resource fetcher and the alasql
engine).  External collaborators (crypto hashes, `Date` parsing, the HTTP
client, alasql's own SQL evaluator) are passed in as parameters, never
stubbed.
-/

/-- A JavaScript runtime value as manipulated by `src/api/query.js`:
`undefined`, `null`, booleans, finite numbers (modelled as rationals),
`NaN`, strings, arrays and plain objects (ordered field lists, as in an
object literal). -/
inductive Js where
  | undefined : Js
  | null : Js
  | bool : Bool → Js
  | num : ℚ → Js
  | nan : Js
  | str : String → Js
  | arr : List Js → Js
  | obj : List (String × Js) → Js
deriving Repr

mutual

/-- Decidable equality for `Js` values (structural; for the interesting
cases — primitives — it coincides with JavaScript `===` except that here
`nan = nan`). -/
def Js.beq : Js → Js → Bool
  | .undefined, .undefined => true
  | .null, .null => true
  | .bool a, .bool b => a == b
  | .num a, .num b => a == b
  | .nan, .nan => true
  | .str a, .str b => a == b
  | .arr a, .arr b => Js.beqList a b
  | .obj a, .obj b => Js.beqFields a b
  | _, _ => false

/-- Element-wise equality of `Js` arrays. -/
def Js.beqList : List Js → List Js → Bool
  | [], [] => true
  | a :: as_, b :: bs => Js.beq a b && Js.beqList as_ bs
  | _, _ => false

/-- Field-wise equality of `Js` objects. -/
def Js.beqFields : List (String × Js) → List (String × Js) → Bool
  | [], [] => true
  | (k, v) :: as_, (l, w) :: bs => k == l && Js.beq v w && Js.beqFields as_ bs
  | _, _ => false

end

instance : BEq Js := ⟨Js.beq⟩

mutual

theorem Js.beq_eq : ∀ {a b : Js}, Js.beq a b = true → a = b
  | .undefined, .undefined, _ => rfl
  | .null, .null, _ => rfl
  | .bool _, .bool _, h => by
      simp only [Js.beq] at h; exact congrArg Js.bool (eq_of_beq h)
  | .num _, .num _, h => by
      simp only [Js.beq] at h; exact congrArg Js.num (eq_of_beq h)
  | .nan, .nan, _ => rfl
  | .str _, .str _, h => by
      simp only [Js.beq] at h; exact congrArg Js.str (eq_of_beq h)
  | .arr a, .arr b, h => by
      simp only [Js.beq] at h
      exact congrArg Js.arr (Js.beqList_eq h)
  | .obj a, .obj b, h => by
      simp only [Js.beq] at h
      exact congrArg Js.obj (Js.beqFields_eq h)

theorem Js.beqList_eq : ∀ {a b : List Js}, Js.beqList a b = true → a = b
  | [], [], _ => rfl
  | a :: as_, b :: bs, h => by
      simp only [Js.beqList, Bool.and_eq_true] at h
      rw [Js.beq_eq h.1, Js.beqList_eq h.2]
  | [], _ :: _, h => by simp [Js.beqList] at h
  | _ :: _, [], h => by simp [Js.beqList] at h

theorem Js.beqFields_eq :
    ∀ {a b : List (String × Js)}, Js.beqFields a b = true → a = b
  | [], [], _ => rfl
  | (k, v) :: as_, (l, w) :: bs, h => by
      simp only [Js.beqFields, Bool.and_eq_true] at h
      obtain ⟨⟨h1, h2⟩, h3⟩ := h
      rw [eq_of_beq h1, Js.beq_eq h2, Js.beqFields_eq h3]
  | [], _ :: _, h => by simp [Js.beqFields] at h
  | _ :: _, [], h => by simp [Js.beqFields] at h

end

mutual

theorem Js.beq_refl : ∀ (a : Js), Js.beq a a = true
  | .undefined => rfl
  | .null => rfl
  | .bool b => by simp [Js.beq]
  | .num q => by simp [Js.beq]
  | .nan => rfl
  | .str s => by simp [Js.beq]
  | .arr l => by simp only [Js.beq]; exact Js.beqList_refl l
  | .obj l => by simp only [Js.beq]; exact Js.beqFields_refl l

theorem Js.beqList_refl : ∀ (l : List Js), Js.beqList l l = true
  | [] => rfl
  | a :: as_ => by
      simp only [Js.beqList, Bool.and_eq_true]
      exact ⟨Js.beq_refl a, Js.beqList_refl as_⟩

theorem Js.beqFields_refl : ∀ (l : List (String × Js)), Js.beqFields l l = true
  | [] => rfl
  | (k, v) :: as_ => by
      simp only [Js.beqFields, Bool.and_eq_true]
      exact ⟨⟨by simp, Js.beq_refl v⟩, Js.beqFields_refl as_⟩

end

instance : DecidableEq Js := fun a b =>
  if h : Js.beq a b = true then .isTrue (Js.beq_eq h)
  else .isFalse (fun he => h (he ▸ Js.beq_refl a))

namespace Js

/-- JavaScript truthiness: `undefined`, `null`, `false`, `0`, `NaN` and
`""` are falsy; every other value (including any array or object) is
truthy. -/
def truthy : Js → Bool
  | .undefined => false
  | .null => false
  | .bool b => b
  | .num q => !(q == 0)
  | .nan => false
  | .str s => !(s == "")
  | .arr _ => true
  | .obj _ => true

/-- JavaScript loose inequality against `null` (`x != null`), which is
false exactly for `null` and `undefined`. -/
def notNullish : Js → Bool
  | .null => false
  | .undefined => false
  | _ => true

/-- Property access combined with optional-chaining short-circuiting:
reading a field of an object looks it up (absent field gives
`undefined`); reading a field of any non-object — in the pipeline this
only happens behind `?.`, where JavaScript short-circuits nullish bases
to `undefined` — gives `undefined`. -/
def get (v : Js) (k : String) : Js :=
  match v with
  | .obj fs =>
    match fs.find? (fun p => p.1 == k) with
    | some p => p.2
    | none => .undefined
  | _ => .undefined

/-- JavaScript `a || b`: `a` when truthy, otherwise `b`. -/
def orE (a b : Js) : Js := if a.truthy then a else b

/-- Is the value an array? -/
def isArr : Js → Bool
  | .arr _ => true
  | _ => false

end Js

/-- JavaScript strict equality `===` on the values reachable in the
pipeline: primitives compare structurally, `NaN` equals nothing, and
distinct array/object literals are reference-unequal (modelled as
`false`). -/
def strictEq : Js → Js → Bool
  | .null, .null => true
  | .undefined, .undefined => true
  | .bool a, .bool b => a == b
  | .num a, .num b => a == b
  | .str a, .str b => a == b
  | _, _ => false

/-- ASCII whitespace, standing in for the characters matched by
JavaScript's `\s` (the pipeline only ever meets ASCII SQL text). -/
def isWs (c : Char) : Bool :=
  c = ' ' || c = '\t' || c = '\n' || c = '\r' || c = '\x0b' || c = '\x0c'

/-- JavaScript `\w` word characters: ASCII letters, digits, underscore. -/
def isWordChar (c : Char) : Bool := c.isAlpha || c.isDigit || c = '_'

/-- Decimal string of a rational that is exact on integers (the only
numbers the pipeline ever stringifies); non-integral rationals use the
`Rat` printer as a stand-in for JavaScript float printing, which no
reachable call site exercises. -/
def numToString (q : ℚ) : String :=
  if q.den = 1 then toString q.num else toString q

mutual

/-- `Array.prototype.join`: elements are stringified with `String(·)`
except that `null` and `undefined` become the empty string. -/
def jsJoinList (sep : String) : List Js → String
  | [] => ""
  | [x] => jsElemString x
  | x :: y :: ys => jsElemString x ++ sep ++ jsJoinList sep (y :: ys)

/-- Stringification of one array element under `join` (`null` and
`undefined` become empty; otherwise `String(·)` semantics). -/
def jsElemString : Js → String
  | .undefined => ""
  | .null => ""
  | .bool b => if b then "true" else "false"
  | .num q => numToString q
  | .nan => "NaN"
  | .str s => s
  | .arr l => jsJoinList "," l
  | .obj _ => "[object Object]"

end

/-- JavaScript `String(v)` (also the semantics of template-literal
interpolation): `undefined` ↦ `"undefined"`, `null` ↦ `"null"`, arrays
join with commas, objects print `"[object Object]"`. -/
def jsString : Js → String
  | .undefined => "undefined"
  | .null => "null"
  | .bool b => if b then "true" else "false"
  | .num q => numToString q
  | .nan => "NaN"
  | .str s => s
  | .arr l => jsJoinList "," l
  | .obj _ => "[object Object]"

/-- `x?.join(sep)`: `undefined` on a nullish receiver, the joined string
on an array.  (A non-array truthy receiver would throw in JavaScript and
is unreachable from the GraphQL shapes; it is mapped to `undefined`.) -/
def jsJoin (sep : String) (v : Js) : Js :=
  match v with
  | .arr l => .str (jsJoinList sep l)
  | _ => .undefined

/-- `x?.map(o => o.k)`: `undefined` on a nullish receiver, the mapped
array otherwise. -/
def jsMapField (k : String) (v : Js) : Js :=
  match v with
  | .arr l => .arr (l.map (fun e => Js.get e k))
  | _ => .undefined

/-- `x?.length || …` building block: `.length` of an array or string,
`undefined` otherwise. -/
def jsLength (v : Js) : Js :=
  match v with
  | .arr l => .num l.length
  | .str s => .num s.length
  | _ => .undefined

/-- Splitting a character list at every occurrence of `sep`, exactly as
JavaScript `String.prototype.split` with a one-character separator: the
result is always non-empty and concatenating it with separators restores
the input. -/
def splitOnChar (sep : Char) : List Char → List (List Char)
  | [] => [[]]
  | c :: cs =>
    match splitOnChar sep cs with
    | [] => [[]]
    | g :: gs => if c = sep then [] :: g :: gs else (c :: g) :: gs

/-- The last segment of `cs` split at `sep` — JavaScript
`cs.split(sep).pop()`. -/
def lastSegment (sep : Char) (cs : List Char) : List Char :=
  (splitOnChar sep cs).getLastD []

/-- `x.split('/').pop()` at the string level: the trailing segment of an
opaque identifier after the last slash (`query.js` line 414 and
friends). -/
def stripId (s : String) : String := ⟨lastSegment '/' s.data⟩

/-- `x?.split('/').pop()` at the `Js` level: nullish in, `undefined`
out; a string in, its stripped trailing segment out. -/
def jsSplitPop (v : Js) : Js :=
  match v with
  | .str s => .str (stripId s)
  | _ => .undefined

/-- Digit run value, most significant first. -/
def digitsToNat (ds : List Char) : Nat :=
  ds.foldl (fun a c => a * 10 + (c.toNat - '0'.toNat)) 0

/-- Value of a fraction-digit run as a rational in `[0, 1)`. -/
def fracToQ (ds : List Char) : ℚ :=
  (digitsToNat ds : ℚ) / ((10 : ℚ) ^ ds.length)

/-- JavaScript `parseFloat` on a character list: skip leading
whitespace, optional sign, integer digits, optional fraction; `NaN` when
no digit is found.  (The exponent form never occurs in the money strings
the pipeline parses.) -/
def parseFloatChars (cs0 : List Char) : Js :=
  let cs1 := cs0.dropWhile isWs
  let signAndRest : ℚ × List Char :=
    match cs1 with
    | '-' :: r => (-1, r)
    | '+' :: r => (1, r)
    | _ => (1, cs1)
  let intPart := signAndRest.2.takeWhile Char.isDigit
  let afterInt := signAndRest.2.dropWhile Char.isDigit
  let fracPart : List Char :=
    match afterInt with
    | '.' :: r => r.takeWhile Char.isDigit
    | _ => []
  if intPart.isEmpty && fracPart.isEmpty then .nan
  else .num (signAndRest.1 * ((digitsToNat intPart : ℚ) + fracToQ fracPart))

/-- JavaScript `parseFloat(v)`: numbers pass through, everything else is
stringified and parsed. -/
def jsParseFloat : Js → Js
  | .num q => .num q
  | v => parseFloatChars (jsString v).data

/-- JavaScript `parseInt(v, 10)`: stringify, skip whitespace, optional
sign, leading digits; `NaN` when no digit is found. -/
def jsParseInt (v : Js) : Js :=
  let cs1 := (jsString v).data.dropWhile isWs
  let signAndRest : Int × List Char :=
    match cs1 with
    | '-' :: r => (-1, r)
    | '+' :: r => (1, r)
    | _ => (1, cs1)
  let ds := signAndRest.2.takeWhile Char.isDigit
  if ds.isEmpty then .nan
  else .num ((signAndRest.1 * (digitsToNat ds : Int) : Int) : ℚ)

/-- `String.prototype.trim` (ASCII whitespace). -/
def jsTrimString (s : String) : String :=
  ⟨((s.data.dropWhile isWs).reverse.dropWhile isWs).reverse⟩

/-- A parsed JavaScript `Date`, as observed by the scalar functions: its
ISO-8601 rendering and the calendar components returned by
`getFullYear`, `getMonth` (0-based) and `getDate`. -/
structure JsDate where
  iso : String
  year : Int
  monthIndex : Nat
  day : Nat

/- Registered alasql scalar functions (`query.js` lines 5–99).  The
crypto digests and `new Date(·)` parsing are external collaborators and
enter as parameters; `none` from the date parser models an invalid
date.  Functions whose JavaScript body can throw (only `DATE`, via
`toISOString` on an invalid date) return `Except`; the rest are pure. -/
namespace alasql.fn

/-- `SHA2(value, bits)`: `null` on falsy input, otherwise the sha256 or
sha512 hex digest of the stringified value (sha256 for any other
`bits`). -/
def SHA2 (sha256hex sha512hex : String → String) (str bits : Js) : Js :=
  if !str.truthy then .null
  else
    let algorithm :=
      if strictEq bits (.num 256) then sha256hex
      else if strictEq bits (.num 512) then sha512hex
      else sha256hex
    .str (algorithm (jsString str))

/-- `MD5(value)`: `null` on falsy input, otherwise the md5 hex digest of
the stringified value. -/
def MD5 (md5hex : String → String) (str : Js) : Js :=
  if !str.truthy then .null else .str (md5hex (jsString str))

/-- `LOWER(value)`: `null` on falsy input, otherwise lower-cased. -/
def LOWER (str : Js) : Js :=
  if str.truthy then .str ((jsString str).map Char.toLower) else .null

/-- `UPPER(value)`: `null` on falsy input, otherwise upper-cased. -/
def UPPER (str : Js) : Js :=
  if str.truthy then .str ((jsString str).map Char.toUpper) else .null

/-- `CONCAT(...args)`: join the stringified non-nullish arguments with
the empty separator. -/
def CONCAT (args : List Js) : Js :=
  .str (jsJoinList "" (args.filter (fun a => a.notNullish)))

/-- `ToIntegerOrInfinity`-style index conversion used by `substring`:
numbers truncate toward zero, `NaN` and non-numbers clamp to `0`. -/
def jsToIndex (v : Js) : Int :=
  match v with
  | .num q => q.floor + (if q < 0 && q.den ≠ 1 then 1 else 0)
  | _ => 0

/-- `String.prototype.substring(a, b)` clamping semantics on character
lists. -/
def jsSubstringString (s : String) (a : Int) (b : Option Int) : String :=
  let len : Int := s.data.length
  let clamp (x : Int) : Nat := (min (max x 0) len).toNat
  let a' := clamp a
  let b' := match b with | some x => clamp x | none => s.data.length
  let lo := min a' b'
  let hi := max a' b'
  ⟨(s.data.drop lo).take (hi - lo)⟩

/-- `SUBSTRING(value, start, length?)`: `null` on falsy input; otherwise
the 1-indexed substring, open-ended when `length` is falsy. -/
def SUBSTRING (str start length : Js) : Js :=
  if !str.truthy then .null
  else
    .str (jsSubstringString (jsString str) (jsToIndex start - 1)
      (if length.truthy then some (jsToIndex start - 1 + jsToIndex length) else none))

/-- `TRIM(value)`: `null` on falsy input, otherwise whitespace-trimmed. -/
def TRIM (str : Js) : Js :=
  if str.truthy then .str (jsTrimString (jsString str)) else .null

/-- `LENGTH(value)`: `0` on falsy input, otherwise the length of the
stringified value. -/
def LENGTH (str : Js) : Js :=
  if str.truthy then .num (jsString str).length else .num 0

/-- `NOW()`: the current instant's ISO string, supplied by the clock
collaborator. -/
def NOW (nowIso : String) : Js := .str nowIso

/-- `DATE(value)`: `null` on falsy input; `toISOString().split('T')[0]`
on a parsed date; a thrown `RangeError` (modelled as `Except.error`) on
an invalid date. -/
def DATE (dateParse : Js → Option JsDate) (str : Js) : Except String Js :=
  if !str.truthy then .ok .null
  else
    match dateParse str with
    | some d => .ok (.str ⟨(splitOnChar 'T' d.iso.data).headD []⟩)
    | none => .error "Invalid time value"

/-- `YEAR(value)`: `null` on falsy input, `getFullYear()` otherwise
(`NaN` on an invalid date). -/
def YEAR (dateParse : Js → Option JsDate) (str : Js) : Js :=
  if !str.truthy then .null
  else
    match dateParse str with
    | some d => .num d.year
    | none => .nan

/-- `MONTH(value)`: `null` on falsy input, `getMonth() + 1` otherwise. -/
def MONTH (dateParse : Js → Option JsDate) (str : Js) : Js :=
  if !str.truthy then .null
  else
    match dateParse str with
    | some d => .num (d.monthIndex + 1)
    | none => .nan

/-- `DAY(value)`: `null` on falsy input, `getDate()` otherwise. -/
def DAY (dateParse : Js → Option JsDate) (str : Js) : Js :=
  if !str.truthy then .null
  else
    match dateParse str with
    | some d => .num d.day
    | none => .nan

/-- `COALESCE(...args)`: the first non-nullish argument, else `null`. -/
def COALESCE (args : List Js) : Js :=
  match args.find? (fun a => a.notNullish) with
  | some a => a
  | none => .null

/-- `IFNULL(value, default)`. -/
def IFNULL (val defaultVal : Js) : Js :=
  if val.notNullish then val else defaultVal

/-- `NULLIF(a, b)`: `null` when `a === b`, else `a`. -/
def NULLIF (val1 val2 : Js) : Js :=
  if strictEq val1 val2 then .null else val1

/-- `type?.toUpperCase()` as used by `CAST`: `none` models the nullish
short-circuit (and the unreachable throw on a non-string). -/
def castTypeName (t : Js) : Option String :=
  match t with
  | .str s => some (s.map Char.toUpper)
  | _ => none

/-- `CAST(value, type)`: `null` in, `null` out; integer, float and
string conversions; unknown type returns the value unchanged. -/
def CAST (val type : Js) : Js :=
  if !val.notNullish then .null
  else
    match castTypeName type with
    | some "INT" | some "INTEGER" => jsParseInt val
    | some "FLOAT" | some "DECIMAL" | some "DOUBLE" => jsParseFloat val
    | some "STRING" | some "VARCHAR" | some "CHAR" => .str (jsString val)
    | _ => val

end alasql.fn

/- Resource Normalizer: `transformToTable` (`query.js` lines 405–756).
Each branch is transcribed field-by-field from the object literals in
the source; `Js.get` composition models the `?.` chains, `Js.orE`
models `||`, `jsSplitPop` models `id?.split('/').pop()`.  The `forEach`
/ `push` loops over child arrays become `flatMap`; a child list that is
not an array (which would throw in JavaScript and cannot arise from the
GraphQL shapes) contributes no rows. -/

/-- The elements of a `Js` array (the receiver of a `forEach`); non-arrays
contribute nothing. -/
def nodesList (v : Js) : List Js :=
  match v with
  | .arr l => l
  | _ => []

/-- `o.lineItems?.nodes || []` for an order record. -/
def liNodes (o : Js) : Js :=
  Js.orE (Js.get (Js.get o "lineItems") "nodes") (.arr [])

/-- One `orders` row (`query.js` lines 408–497). -/
def ordersRow (o : Js) : Js :=
  let journey := Js.get o "customerJourneySummary"
  let firstVisit := Js.get journey "firstVisit"
  let lastVisit := Js.get journey "lastVisit"
  .obj [
    ("id", jsSplitPop (Js.get o "id")),
    ("order_number", Js.get o "name"),
    ("email", Js.get o "email"),
    ("created_at", Js.get o "createdAt"),
    ("updated_at", Js.get o "updatedAt"),
    ("cancelled_at", Js.get o "cancelledAt"),
    ("closed_at", Js.get o "closedAt"),
    ("processed_at", Js.get o "processedAt"),
    ("total_price", jsParseFloat (Js.orE (Js.get (Js.get (Js.get o "totalPriceSet") "shopMoney") "amount") (.num 0))),
    ("subtotal_price", jsParseFloat (Js.orE (Js.get (Js.get (Js.get o "subtotalPriceSet") "shopMoney") "amount") (.num 0))),
    ("total_tax", jsParseFloat (Js.orE (Js.get (Js.get (Js.get o "totalTaxSet") "shopMoney") "amount") (.num 0))),
    ("total_shipping", jsParseFloat (Js.orE (Js.get (Js.get (Js.get o "totalShippingPriceSet") "shopMoney") "amount") (.num 0))),
    ("total_discounts", jsParseFloat (Js.orE (Js.get (Js.get (Js.get o "totalDiscountsSet") "shopMoney") "amount") (.num 0))),
    ("total_refunded", jsParseFloat (Js.orE (Js.get (Js.get (Js.get o "totalRefundedSet") "shopMoney") "amount") (.num 0))),
    ("currency", Js.get (Js.get (Js.get o "totalPriceSet") "shopMoney") "currencyCode"),
    ("financial_status", Js.get o "displayFinancialStatus"),
    ("fulfillment_status", Js.get o "displayFulfillmentStatus"),
    ("fulfillable", Js.get o "fulfillable"),
    ("note", Js.get o "note"),
    ("tags", jsJoin ", " (Js.get o "tags")),
    ("source_name", Js.get o "sourceName"),
    ("source_identifier", Js.get o "sourceIdentifier"),
    ("journey_ready", Js.get journey "ready"),
    ("days_to_conversion", Js.get journey "daysToConversion"),
    ("touchpoints_count", Js.get (Js.get journey "momentsCount") "count"),
    ("first_visit_at", Js.get firstVisit "occurredAt"),
    ("first_visit_landing_page", Js.get firstVisit "landingPage"),
    ("first_visit_referrer", Js.get firstVisit "referrerUrl"),
    ("first_visit_source", Js.get firstVisit "source"),
    ("first_visit_source_type", Js.get firstVisit "sourceType"),
    ("first_visit_referral_code", Js.get firstVisit "referralCode"),
    ("first_utm_source", Js.get (Js.get firstVisit "utmParameters") "source"),
    ("first_utm_medium", Js.get (Js.get firstVisit "utmParameters") "medium"),
    ("first_utm_campaign", Js.get (Js.get firstVisit "utmParameters") "campaign"),
    ("first_utm_content", Js.get (Js.get firstVisit "utmParameters") "content"),
    ("first_utm_term", Js.get (Js.get firstVisit "utmParameters") "term"),
    ("last_visit_at", Js.get lastVisit "occurredAt"),
    ("last_visit_landing_page", Js.get lastVisit "landingPage"),
    ("last_visit_referrer", Js.get lastVisit "referrerUrl"),
    ("last_visit_source", Js.get lastVisit "source"),
    ("last_visit_source_type", Js.get lastVisit "sourceType"),
    ("last_visit_referral_code", Js.get lastVisit "referralCode"),
    ("last_utm_source", Js.get (Js.get lastVisit "utmParameters") "source"),
    ("last_utm_medium", Js.get (Js.get lastVisit "utmParameters") "medium"),
    ("last_utm_campaign", Js.get (Js.get lastVisit "utmParameters") "campaign"),
    ("last_utm_content", Js.get (Js.get lastVisit "utmParameters") "content"),
    ("last_utm_term", Js.get (Js.get lastVisit "utmParameters") "term"),
    ("customer_id", jsSplitPop (Js.get (Js.get o "customer") "id")),
    ("customer_email", Js.get (Js.get o "customer") "email"),
    ("customer_first_name", Js.get (Js.get o "customer") "firstName"),
    ("customer_last_name", Js.get (Js.get o "customer") "lastName"),
    ("customer_phone", Js.get (Js.get o "customer") "phone"),
    ("shipping_address1", Js.get (Js.get o "shippingAddress") "address1"),
    ("shipping_city", Js.get (Js.get o "shippingAddress") "city"),
    ("shipping_province", Js.get (Js.get o "shippingAddress") "province"),
    ("shipping_country", Js.get (Js.get o "shippingAddress") "country"),
    ("shipping_zip", Js.get (Js.get o "shippingAddress") "zip"),
    ("billing_address1", Js.get (Js.get o "billingAddress") "address1"),
    ("billing_city", Js.get (Js.get o "billingAddress") "city"),
    ("billing_province", Js.get (Js.get o "billingAddress") "province"),
    ("billing_country", Js.get (Js.get o "billingAddress") "country"),
    ("billing_zip", Js.get (Js.get o "billingAddress") "zip"),
    ("line_items_count", Js.orE (jsLength (Js.get (Js.get o "lineItems") "nodes")) (.num 0))]

/-- The `orders` branch: one row per order. -/
def transformOrders (data : List Js) : List Js := data.map ordersRow

/-- One visit row of the derived `order_sessions` table (`query.js`
lines 509–525 and 530–546); `visitType` is `"first"` or `"last"`. -/
def sessionRow (o visit : Js) (visitType : String) : Js :=
  let orderId := jsSplitPop (Js.get o "id")
  .obj [
    ("id", .str (jsString orderId ++ "-" ++ visitType)),
    ("order_id", orderId),
    ("order_number", Js.get o "name"),
    ("visit_type", .str visitType),
    ("occurred_at", Js.get visit "occurredAt"),
    ("landing_page", Js.get visit "landingPage"),
    ("referrer_url", Js.get visit "referrerUrl"),
    ("source", Js.get visit "source"),
    ("source_type", Js.get visit "sourceType"),
    ("referral_code", Js.get visit "referralCode"),
    ("utm_source", Js.get (Js.get visit "utmParameters") "source"),
    ("utm_medium", Js.get (Js.get visit "utmParameters") "medium"),
    ("utm_campaign", Js.get (Js.get visit "utmParameters") "campaign"),
    ("utm_content", Js.get (Js.get visit "utmParameters") "content"),
    ("utm_term", Js.get (Js.get visit "utmParameters") "term")]

/-- The `order_sessions` branch: up to two visit rows per order, guarded
by the truthiness of `journey?.firstVisit` / `journey?.lastVisit`. -/
def transformOrderSessions (data : List Js) : List Js :=
  data.flatMap (fun o =>
    let journey := Js.get o "customerJourneySummary"
    (if (Js.get journey "firstVisit").truthy
     then [sessionRow o (Js.get journey "firstVisit") "first"] else []) ++
    (if (Js.get journey "lastVisit").truthy
     then [sessionRow o (Js.get journey "lastVisit") "last"] else []))

/-- One row of the derived `order_line_items` table (`query.js` lines
555–569), carrying the parent order's stripped id and name. -/
def lineItemRow (o li : Js) : Js :=
  .obj [
    ("id", jsSplitPop (Js.get li "id")),
    ("order_id", jsSplitPop (Js.get o "id")),
    ("order_number", Js.get o "name"),
    ("title", Js.get li "title"),
    ("quantity", Js.get li "quantity"),
    ("sku", Js.orE (Js.get li "sku") (Js.get (Js.get li "variant") "sku")),
    ("vendor", Js.get li "vendor"),
    ("unit_price", jsParseFloat (Js.orE (Js.get (Js.get (Js.get li "originalUnitPriceSet") "shopMoney") "amount") (.num 0))),
    ("discounted_price", jsParseFloat (Js.orE (Js.get (Js.get (Js.get li "discountedUnitPriceSet") "shopMoney") "amount") (.num 0))),
    ("variant_id", jsSplitPop (Js.get (Js.get li "variant") "id")),
    ("variant_title", Js.get (Js.get li "variant") "title"),
    ("product_id", jsSplitPop (Js.get (Js.get li "product") "id")),
    ("product_title", Js.get (Js.get li "product") "title")]

/-- The `order_line_items` branch: one row per line item per order. -/
def transformOrderLineItems (data : List Js) : List Js :=
  data.flatMap (fun o => (nodesList (liNodes o)).map (lineItemRow o))

/-- One `products` row (`query.js` lines 575–598). -/
def productsRow (p : Js) : Js :=
  .obj [
    ("id", jsSplitPop (Js.get p "id")),
    ("title", Js.get p "title"),
    ("handle", Js.get p "handle"),
    ("description", Js.get p "description"),
    ("vendor", Js.get p "vendor"),
    ("product_type", Js.get p "productType"),
    ("tags", jsJoin ", " (Js.get p "tags")),
    ("status", Js.get p "status"),
    ("created_at", Js.get p "createdAt"),
    ("updated_at", Js.get p "updatedAt"),
    ("published_at", Js.get p "publishedAt"),
    ("total_inventory", Js.get p "totalInventory"),
    ("tracks_inventory", Js.get p "tracksInventory"),
    ("min_price", jsParseFloat (Js.orE (Js.get (Js.get (Js.get p "priceRangeV2") "minVariantPrice") "amount") (.num 0))),
    ("max_price", jsParseFloat (Js.orE (Js.get (Js.get (Js.get p "priceRangeV2") "maxVariantPrice") "amount") (.num 0))),
    ("currency", Js.get (Js.get (Js.get p "priceRangeV2") "minVariantPrice") "currencyCode"),
    ("options", jsJoin ", " (jsMapField "name" (Js.get p "options"))),
    ("image_url", Js.get (Js.get p "featuredImage") "url"),
    ("seo_title", Js.get (Js.get p "seo") "title"),
    ("seo_description", Js.get (Js.get p "seo") "description"),
    ("collections", jsJoin ", " (jsMapField "title" (Js.get (Js.get p "collections") "nodes"))),
    ("variants_count", Js.orE (jsLength (Js.get (Js.get p "variants") "nodes")) (.num 0))]

/-- The `products` branch: one row per product. -/
def transformProducts (data : List Js) : List Js := data.map productsRow

/-- `v.selectedOptions?.map(o => template).join(', ')` for a variant. -/
def selectedOptionsJs (v : Js) : Js :=
  match Js.get v "selectedOptions" with
  | .arr l => .arr (l.map (fun o =>
      .str (jsString (Js.get o "name") ++ ": " ++ jsString (Js.get o "value"))))
  | _ => .undefined

/-- One row of the derived `product_variants` table (`query.js` lines
604–620). -/
def variantRow (p v : Js) : Js :=
  .obj [
    ("id", jsSplitPop (Js.get v "id")),
    ("product_id", jsSplitPop (Js.get p "id")),
    ("product_title", Js.get p "title"),
    ("title", Js.get v "title"),
    ("sku", Js.get v "sku"),
    ("barcode", Js.get v "barcode"),
    ("price", jsParseFloat (Js.orE (Js.get v "price") (.num 0))),
    ("compare_at_price",
      if (Js.get v "compareAtPrice").truthy
      then jsParseFloat (Js.get v "compareAtPrice") else .null),
    ("inventory_quantity", Js.get v "inventoryQuantity"),
    ("available_for_sale", Js.get v "availableForSale"),
    ("weight", Js.get v "weight"),
    ("weight_unit", Js.get v "weightUnit"),
    ("options", jsJoin ", " (selectedOptionsJs v)),
    ("inventory_item_id", jsSplitPop (Js.get (Js.get v "inventoryItem") "id")),
    ("inventory_tracked", Js.get (Js.get v "inventoryItem") "tracked")]

/-- The `product_variants` branch: one row per variant per product,
iterating `p.variants?.nodes || []`. -/
def transformProductVariants (data : List Js) : List Js :=
  data.flatMap (fun p =>
    (nodesList (Js.orE (Js.get (Js.get p "variants") "nodes") (.arr []))).map
      (variantRow p))

/-- One `customers` row (`query.js` lines 626–653). -/
def customersRow (c : Js) : Js :=
  .obj [
    ("id", jsSplitPop (Js.get c "id")),
    ("email", Js.get c "email"),
    ("first_name", Js.get c "firstName"),
    ("last_name", Js.get c "lastName"),
    ("full_name", .str (jsJoinList " "
      ([Js.get c "firstName", Js.get c "lastName"].filter (fun x => x.truthy)))),
    ("phone", Js.get c "phone"),
    ("created_at", Js.get c "createdAt"),
    ("updated_at", Js.get c "updatedAt"),
    ("note", Js.get c "note"),
    ("tags", jsJoin ", " (Js.get c "tags")),
    ("state", Js.get c "state"),
    ("tax_exempt", Js.get c "taxExempt"),
    ("verified_email", Js.get c "verifiedEmail"),
    ("valid_email", Js.get c "validEmailAddress"),
    ("orders_count", Js.get c "numberOfOrders"),
    ("total_spent", jsParseFloat (Js.orE (Js.get (Js.get c "amountSpent") "amount") (.num 0))),
    ("currency", Js.get (Js.get c "amountSpent") "currencyCode"),
    ("address1", Js.get (Js.get c "defaultAddress") "address1"),
    ("address2", Js.get (Js.get c "defaultAddress") "address2"),
    ("city", Js.get (Js.get c "defaultAddress") "city"),
    ("province", Js.get (Js.get c "defaultAddress") "province"),
    ("province_code", Js.get (Js.get c "defaultAddress") "provinceCode"),
    ("country", Js.get (Js.get c "defaultAddress") "country"),
    ("country_code", Js.get (Js.get c "defaultAddress") "countryCodeV2"),
    ("zip", Js.get (Js.get c "defaultAddress") "zip"),
    ("company", Js.get (Js.get c "defaultAddress") "company")]

/-- The `customers` branch: one row per customer. -/
def transformCustomers (data : List Js) : List Js := data.map customersRow

/-- One `collections` row (`query.js` lines 656–667). -/
def collectionsRow (c : Js) : Js :=
  .obj [
    ("id", jsSplitPop (Js.get c "id")),
    ("title", Js.get c "title"),
    ("handle", Js.get c "handle"),
    ("description", Js.get c "description"),
    ("sort_order", Js.get c "sortOrder"),
    ("products_count", Js.get (Js.get c "productsCount") "count"),
    ("updated_at", Js.get c "updatedAt"),
    ("image_url", Js.get (Js.get c "image") "url"),
    ("seo_title", Js.get (Js.get c "seo") "title"),
    ("seo_description", Js.get (Js.get c "seo") "description")]

/-- The `collections` branch: one row per collection. -/
def transformCollections (data : List Js) : List Js := data.map collectionsRow

/-- One `inventory_items` row (`query.js` lines 670–683). -/
def inventoryItemsRow (i : Js) : Js :=
  .obj [
    ("id", jsSplitPop (Js.get i "id")),
    ("sku", Js.get i "sku"),
    ("tracked", Js.get i "tracked"),
    ("created_at", Js.get i "createdAt"),
    ("updated_at", Js.get i "updatedAt"),
    ("country_of_origin", Js.get i "countryCodeOfOrigin"),
    ("province_of_origin", Js.get i "provinceCodeOfOrigin"),
    ("hs_code", Js.get i "harmonizedSystemCode"),
    ("variant_id", jsSplitPop (Js.get (Js.get i "variant") "id")),
    ("variant_title", Js.get (Js.get i "variant") "title"),
    ("product_id", jsSplitPop (Js.get (Js.get (Js.get i "variant") "product") "id")),
    ("product_title", Js.get (Js.get (Js.get i "variant") "product") "title")]

/-- The `inventory_items` branch: one row per inventory item. -/
def transformInventoryItems (data : List Js) : List Js :=
  data.map inventoryItemsRow

/-- One row of the derived `inventory_levels` table (`query.js` lines
689–698). -/
def inventoryLevelRow (i l : Js) : Js :=
  .obj [
    ("id", jsSplitPop (Js.get l "id")),
    ("inventory_item_id", jsSplitPop (Js.get i "id")),
    ("sku", Js.get i "sku"),
    ("location_id", jsSplitPop (Js.get (Js.get l "location") "id")),
    ("location_name", Js.get (Js.get l "location") "name"),
    ("available", Js.get l "available"),
    ("product_title", Js.get (Js.get (Js.get i "variant") "product") "title"),
    ("variant_title", Js.get (Js.get i "variant") "title")]

/-- The `inventory_levels` branch: one row per level per item, iterating
`i.inventoryLevels?.nodes || []`. -/
def transformInventoryLevels (data : List Js) : List Js :=
  data.flatMap (fun i =>
    (nodesList (Js.orE (Js.get (Js.get i "inventoryLevels") "nodes") (.arr []))).map
      (inventoryLevelRow i))

/-- One `locations` row (`query.js` lines 704–716). -/
def locationsRow (l : Js) : Js :=
  .obj [
    ("id", jsSplitPop (Js.get l "id")),
    ("name", Js.get l "name"),
    ("address1", Js.get (Js.get l "address") "address1"),
    ("address2", Js.get (Js.get l "address") "address2"),
    ("city", Js.get (Js.get l "address") "city"),
    ("province", Js.get (Js.get l "address") "province"),
    ("country", Js.get (Js.get l "address") "country"),
    ("zip", Js.get (Js.get l "address") "zip"),
    ("is_active", Js.get l "isActive"),
    ("fulfills_online_orders", Js.get l "fulfillsOnlineOrders"),
    ("has_active_inventory", Js.get l "hasActiveInventory")]

/-- The `locations` branch: one row per location. -/
def transformLocations (data : List Js) : List Js := data.map locationsRow

/-- One `draft_orders` row (`query.js` lines 719–735). -/
def draftOrdersRow (d : Js) : Js :=
  .obj [
    ("id", jsSplitPop (Js.get d "id")),
    ("name", Js.get d "name"),
    ("email", Js.get d "email"),
    ("created_at", Js.get d "createdAt"),
    ("updated_at", Js.get d "updatedAt"),
    ("status", Js.get d "status"),
    ("total_price", jsParseFloat (Js.orE (Js.get (Js.get (Js.get d "totalPriceSet") "shopMoney") "amount") (.num 0))),
    ("subtotal_price", jsParseFloat (Js.orE (Js.get (Js.get (Js.get d "subtotalPriceSet") "shopMoney") "amount") (.num 0))),
    ("total_tax", jsParseFloat (Js.orE (Js.get (Js.get (Js.get d "totalTaxSet") "shopMoney") "amount") (.num 0))),
    ("currency", Js.get (Js.get (Js.get d "totalPriceSet") "shopMoney") "currencyCode"),
    ("customer_id", jsSplitPop (Js.get (Js.get d "customer") "id")),
    ("customer_email", Js.get (Js.get d "customer") "email"),
    ("customer_first_name", Js.get (Js.get d "customer") "firstName"),
    ("customer_last_name", Js.get (Js.get d "customer") "lastName"),
    ("line_items_count", Js.orE (jsLength (Js.get (Js.get d "lineItems") "nodes")) (.num 0))]

/-- The `draft_orders` branch: one row per draft order. -/
def transformDraftOrders (data : List Js) : List Js := data.map draftOrdersRow

/-- The `shop` branch (`query.js` lines 737–751): the case body binds
`s` to whatever was passed as `data` — through `fetchShopifyData` that
is the wrapping array `[shopRecord]`, so every property read lands on
the array and yields `undefined` — and returns a single row. -/
def transformShop (s : Js) : List Js :=
  [.obj [
    ("id", jsSplitPop (Js.get s "id")),
    ("name", Js.get s "name"),
    ("email", Js.get s "email"),
    ("myshopify_domain", Js.get s "myshopifyDomain"),
    ("domain", Js.get (Js.get s "primaryDomain") "url"),
    ("currency", Js.get s "currencyCode"),
    ("weight_unit", Js.get s "weightUnit"),
    ("timezone", Js.get s "timezoneAbbreviation"),
    ("plan_name", Js.get (Js.get s "plan") "displayName"),
    ("is_partner_dev", Js.get (Js.get s "plan") "partnerDevelopment"),
    ("is_plus", Js.get (Js.get s "plan") "shopifyPlus")]]

/-- `transformToTable(resource, data)` (`query.js` line 405): dispatch
on the resource name; unknown resources return the data unchanged.  The
`data` argument is the array the fetcher passes; the `shop` branch, as
in the source, uses that array itself as the record `s`. -/
def transformToTable (resource : String) (data : List Js) : List Js :=
  match resource with
  | "orders" => transformOrders data
  | "order_sessions" => transformOrderSessions data
  | "order_line_items" => transformOrderLineItems data
  | "products" => transformProducts data
  | "product_variants" => transformProductVariants data
  | "customers" => transformCustomers data
  | "collections" => transformCollections data
  | "inventory_items" => transformInventoryItems data
  | "inventory_levels" => transformInventoryLevels data
  | "locations" => transformLocations data
  | "draft_orders" => transformDraftOrders data
  | "shop" => transformShop (.arr data)
  | _ => data

/- Resource Fetcher: the pagination loop of `fetchShopifyData`
(`query.js` lines 759–821).  The remote GraphQL endpoint is a
collaborator, modelled as a stream of page responses; the loop state and
its transition mirror the `while` loop verbatim. -/

/-- One GraphQL page response: the `nodes` list and the
`pageInfo { hasNextPage endCursor }` payload. -/
structure Page where
  nodes : List Js
  hasNextPage : Bool
  endCursor : Js := .null

/-- The mutable state of the pagination loop: `allData`, `hasNextPage`
and `cursor`. -/
structure LoopState where
  allData : List Js
  hasNextPage : Bool
  cursor : Js
deriving Repr, DecidableEq

/-- The loop's entry state: `allData = []`, `hasNextPage = true`,
`cursor = null`. -/
def initLoopState : LoopState := ⟨[], true, .null⟩

/-- The `while (hasNextPage && allData.length < maxRecords)` guard,
negated: `true` when the loop has exited. -/
def loopDone (maxRecords : Nat) (s : LoopState) : Bool :=
  !(s.hasNextPage && decide (s.allData.length < maxRecords))

/-- The page size the loop requests in the current state:
`Math.min(50, maxRecords - allData.length)`. -/
def requestedFirst (maxRecords : Nat) (s : LoopState) : Nat :=
  min 50 (maxRecords - s.allData.length)

/-- One iteration of the pagination loop: when the guard holds, consume
the collaborator's page, append its nodes, and recompute
`hasNextPage = page.hasNextPage && allData.length < maxRecords`;
otherwise the state is final. -/
def loopStep (maxRecords : Nat) (p : Page) (s : LoopState) : LoopState :=
  if s.hasNextPage && decide (s.allData.length < maxRecords) then
    { allData := s.allData ++ p.nodes,
      hasNextPage :=
        p.hasNextPage && decide (s.allData.length + p.nodes.length < maxRecords),
      cursor := p.endCursor }
  else s

/-- The loop state after `n` iterations against the response stream
`stream` (the collaborator answers request `i` with `stream i`). -/
def statesAfter (maxRecords : Nat) (stream : Nat → Page) : Nat → LoopState
  | 0 => initLoopState
  | n + 1 => loopStep maxRecords (stream n) (statesAfter maxRecords stream n)

/-- `sourceMap`: derived tables fetch their base resource (`query.js`
lines 761–766). -/
def sourceMap : List (String × String) :=
  [("order_line_items", "orders"), ("order_sessions", "orders"),
   ("product_variants", "products"), ("inventory_levels", "inventory_items")]

/-- `sourceMap[resource] || resource`. -/
def baseResource (resource : String) : String :=
  match sourceMap.find? (fun p => p.1 == resource) with
  | some p => p.2
  | none => resource

/-- The row collection `fetchShopifyData` hands to the executor for a
paginated resource, observed after `steps` loop iterations against the
response stream:
`transformToTable(resource, allData)` (`query.js` line 820). -/
def fetchShopifyData (resource : String) (maxRecords : Nat)
    (stream : Nat → Page) (steps : Nat) : List Js :=
  transformToTable resource (statesAfter maxRecords stream steps).allData

/- Table Resolver: `detectTablesFromSQL` (`query.js` lines 824–855).
The four regular expressions per catalog table — `\bfrom\s+T\b`,
`\bjoin\s+T\b`, `\bT\.` and `"T"`, all applied to the lower-cased SQL —
are replayed by character-level scanners. -/

/-- Is this position a `\b` boundary, given the previous character (if
any)?  All our patterns continue with a word character, so the boundary
holds exactly when the previous character is absent or not a word
character. -/
def boundaryBefore : Option Char → Bool
  | none => true
  | some c => !isWordChar c

/-- Does `lit` occur literally at the head of `s`? -/
def litHere : List Char → List Char → Bool
  | [], _ => true
  | _ :: _, [] => false
  | l :: ls, c :: cs => l = c && litHere ls cs

/-- After a keyword: consume at least one whitespace character, then the
table name, then require a `\b` boundary (end or non-word character). -/
def wsThenTable (tbl : List Char) (s : List Char) : Bool :=
  match s with
  | [] => false
  | c :: cs =>
    isWs c &&
      (let rest := cs.dropWhile isWs
       litHere tbl rest &&
         (match rest.drop tbl.length with
          | [] => true
          | d :: _ => !isWordChar d))

/-- Does `\b<kw>\s+<tbl>\b` match anywhere in `s`?  `prev` is the
character before the scan position. -/
def scanKwTable (kw tbl : List Char) : Option Char → List Char → Bool
  | _, [] => false
  | prev, c :: cs =>
    (boundaryBefore prev && litHere kw (c :: cs) &&
      wsThenTable tbl ((c :: cs).drop kw.length)) ||
    scanKwTable kw tbl (some c) cs

/-- Does `\b<tbl>\.` match anywhere in `s`? -/
def scanDotted (tbl : List Char) : Option Char → List Char → Bool
  | _, [] => false
  | prev, c :: cs =>
    (boundaryBefore prev && litHere (tbl ++ ['.']) (c :: cs)) ||
    scanDotted tbl (some c) cs

/-- Does `"<tbl>"` match anywhere in `s`? -/
def scanQuoted (tbl : List Char) : List Char → Bool
  | [] => false
  | c :: cs => litHere ('"' :: (tbl ++ ['"'])) (c :: cs) || scanQuoted tbl cs

/-- The fixed catalog of known table names (`query.js` lines 829–838),
in source order. -/
def availableTables : List String :=
  ["orders", "order_line_items", "order_sessions",
   "products", "product_variants",
   "customers",
   "collections",
   "inventory_items", "inventory_levels",
   "locations",
   "draft_orders",
   "shop"]

/-- `patterns.some(p => p.test(normalizedSQL))`: a table is mentioned
when any of its four positional patterns matches the lower-cased SQL. -/
def tableMentioned (normalizedSQL : List Char) (table : String) : Bool :=
  scanKwTable "from".data table.data none normalizedSQL ||
  scanKwTable "join".data table.data none normalizedSQL ||
  scanDotted table.data none normalizedSQL ||
  scanQuoted table.data normalizedSQL

/-- `[...new Set(tables)]`: first-occurrence deduplication preserving
order. -/
def dedupeFirst (l : List String) : List String :=
  l.foldl (fun acc x => if x ∈ acc then acc else acc ++ [x]) []

/-- `detectTablesFromSQL(sql)` (`query.js` line 824): lower-case the
SQL, keep every catalog table one of whose four patterns matches, and
deduplicate. -/
def detectTablesFromSQL (sql : String) : List String :=
  let normalizedSQL := sql.data.map Char.toLower
  dedupeFirst (availableTables.filter (tableMentioned normalizedSQL))

/- Request Orchestrator, SQL branch (`query.js` lines 997–1041).  The
resource fetcher and the alasql engine are collaborators passed as
functions; the model also records which tables were fetched, so that
"no fetch was attempted" is an observable fact. -/

/-- Outcome of the SQL branch of the handler: HTTP status, the error
body (`none` on success), the result rows with their count, and the
trace of per-table fetches that were attempted. -/
structure PipelineResult where
  status : Nat
  error : Option String
  results : List Js
  count : Nat
  fetchCalls : List String
deriving Repr, DecidableEq

/-- The fixed 400 message when no table is recognised (`query.js` lines
1000–1004). -/
def noTableMsg : String :=
  "No valid table found in query. Available tables: orders, order_sessions, order_line_items, products, product_variants, customers, collections, inventory_items, inventory_levels, locations, draft_orders, shop"

/-- `join(', ')` over table names, as a character list. -/
def joinCommaChars : List String → List Char
  | [] => []
  | [t] => t.data
  | t :: u :: ts => t.data ++ (',' :: ' ' :: joinCommaChars (u :: ts))

/-- `String.prototype.includes`: does `needle` occur in `hay`? -/
def listContainsSub (hay needle : List Char) : Bool :=
  match hay with
  | [] => needle.isEmpty
  | _ :: t => needle.isPrefixOf hay || listContainsSub t needle

/-- `hay.includes(needle)` at the string level. -/
def strContains (hay needle : String) : Bool :=
  listContainsSub hay.data needle.data

/-- The sequential per-table fetch loop (`query.js` lines 1007–1015):
each table is fetched in turn; the first failure aborts with
`Failed to fetch <table>: <message>`.  Returns the loaded
`(table, rows)` pairs or the error, along with the list of attempted
fetches. -/
def fetchAll (fetch : String → Except String (List Js)) :
    List String → Except String (List (String × List Js)) × List String
  | [] => (.ok [], [])
  | t :: ts =>
    match fetch t with
    | .error e => (.error ("Failed to fetch " ++ t ++ ": " ++ e), [t])
    | .ok d =>
      match fetchAll fetch ts with
      | (.error e, calls) => (.error e, t :: calls)
      | (.ok rest, calls) => (.ok ((t, d) :: rest), t :: calls)

/-- The SQL branch of the request handler (`query.js` lines 997–1041):
detect tables (400 with `noTableMsg` when none); fetch each table (a
failure surfaces as 500 via the outer catch); execute the SQL through
the alasql collaborator `exec`; on an engine error answer 400 with
`SQL Error: <message>`, appending `. Available tables: <keys>` when the
message contains `not found`; on success wrap a non-array result and
answer 200 with the rows and their count. -/
def handleSqlQuery (fetch : String → Except String (List Js))
    (exec : String → List (String × List Js) → Except String Js)
    (sql : String) : PipelineResult :=
  let tables := detectTablesFromSQL sql
  if tables.isEmpty then
    { status := 400, error := some noTableMsg, results := [], count := 0,
      fetchCalls := [] }
  else
    match fetchAll fetch tables with
    | (.error e, calls) =>
      { status := 500, error := some e, results := [], count := 0,
        fetchCalls := calls }
    | (.ok tableData, calls) =>
      match exec sql tableData with
      | .error msg =>
        let errorMsg :=
          if strContains msg "not found" then
            msg ++ ". Available tables: " ++ ⟨joinCommaChars (tableData.map (fun p => p.1))⟩
          else msg
        { status := 400, error := some ("SQL Error: " ++ errorMsg),
          results := [], count := 0, fetchCalls := calls }
      | .ok r =>
        let results := match r with | .arr l => l | v => [v]
        { status := 200, error := none, results := results,
          count := results.length, fetchCalls := calls }

/- Supporting lemmas. -/

/-- `split` never returns an empty list. -/
theorem splitOnChar_ne_nil (sep : Char) (cs : List Char) :
    splitOnChar sep cs ≠ [] := by
  cases cs with
  | nil => simp [splitOnChar]
  | cons c cs =>
    simp only [splitOnChar]
    cases h : splitOnChar sep cs with
    | nil => simp
    | cons g gs => by_cases hc : c = sep <;> simp [hc]

/-- The separator never occurs in the last segment of a split. -/
theorem sep_not_mem_lastSegment (sep : Char) :
    ∀ cs : List Char, sep ∉ lastSegment sep cs := by
  intro cs
  induction cs with
  | nil => simp [lastSegment, splitOnChar, List.getLastD]
  | cons c cs ih =>
    simp only [lastSegment, splitOnChar] at *
    cases h : splitOnChar sep cs with
    | nil => exact absurd h (splitOnChar_ne_nil sep cs)
    | cons g gs =>
      rw [h] at ih
      by_cases hc : c = sep
      · simp only [hc, if_pos]
        simpa [List.getLastD] using ih
      · simp only [if_neg hc]
        cases gs with
        | nil =>
          simp only [List.getLastD] at *
          intro hmem
          rcases List.mem_cons.mp hmem with h1 | h1
          · exact hc h1.symm
          · exact ih h1
        | cons g' gs' =>
          simp only [List.getLastD] at *
          exact ih

/-- Splitting a list free of the separator returns it whole. -/
theorem splitOnChar_eq_of_not_mem (sep : Char) :
    ∀ cs : List Char, sep ∉ cs → splitOnChar sep cs = [cs] := by
  intro cs
  induction cs with
  | nil => intro _; rfl
  | cons c cs ih =>
    intro h
    rw [List.mem_cons, not_or] at h
    have hc : ¬ c = sep := fun hc => h.1 hc.symm
    simp only [splitOnChar]
    rw [ih h.2]
    simp [hc]

/-- Claim C8: identifier stripping (taking the trailing segment after
the last slash of an opaque id) is idempotent — stripping an
already-bare identifier is a no-op. -/
theorem stripId_idempotent (x : String) : stripId (stripId x) = stripId x := by
  have h1 : '/' ∉ lastSegment '/' x.data := sep_not_mem_lastSegment '/' x.data
  have h2 : splitOnChar '/' (lastSegment '/' x.data) = [lastSegment '/' x.data] :=
    splitOnChar_eq_of_not_mem '/' _ h1
  have h3 : lastSegment '/' (lastSegment '/' x.data) = lastSegment '/' x.data := by
    show (splitOnChar '/' (lastSegment '/' x.data)).getLastD [] = lastSegment '/' x.data
    rw [h2]
    rfl
  show (⟨lastSegment '/' (lastSegment '/' x.data)⟩ : String) = ⟨lastSegment '/' x.data⟩
  rw [h3]

/-- Claim C4: every registered scalar function is total over null input
— none throws on `null` arguments (the one function whose body can
throw, `DATE`, returns `ok` on `null`) — and the documented null
results hold: `CONCAT(null, "a", null) = "a"`,
`COALESCE(null, null, 5) = 5`, `SHA2(null) = null`. -/
theorem scalar_functions_total_on_null (sha256hex sha512hex md5hex : String → String)
    (dateParse : Js → Option JsDate) (nowIso : String) (bits start length d v t : Js) :
    alasql.fn.SHA2 sha256hex sha512hex Js.null bits = Js.null ∧
    alasql.fn.MD5 md5hex Js.null = Js.null ∧
    alasql.fn.LOWER Js.null = Js.null ∧
    alasql.fn.UPPER Js.null = Js.null ∧
    alasql.fn.CONCAT [Js.null, Js.str "a", Js.null] = Js.str "a" ∧
    alasql.fn.CONCAT [Js.null, Js.null] = Js.str "" ∧
    alasql.fn.SUBSTRING Js.null start length = Js.null ∧
    alasql.fn.TRIM Js.null = Js.null ∧
    alasql.fn.LENGTH Js.null = Js.num 0 ∧
    alasql.fn.NOW nowIso = Js.str nowIso ∧
    alasql.fn.DATE dateParse Js.null = Except.ok Js.null ∧
    alasql.fn.YEAR dateParse Js.null = Js.null ∧
    alasql.fn.MONTH dateParse Js.null = Js.null ∧
    alasql.fn.DAY dateParse Js.null = Js.null ∧
    alasql.fn.COALESCE [Js.null, Js.null, Js.num 5] = Js.num 5 ∧
    alasql.fn.COALESCE [Js.null, Js.null] = Js.null ∧
    alasql.fn.IFNULL Js.null d = d ∧
    alasql.fn.NULLIF Js.null v = Js.null ∧
    alasql.fn.CAST Js.null t = Js.null :=
  ⟨rfl, rfl, rfl, rfl, rfl, rfl, rfl, rfl, rfl, rfl, rfl, rfl, rfl, rfl, rfl, rfl,
   rfl, by cases v <;> rfl, rfl⟩

/-- Claim C10: `SHA2`, `MD5`, `LOWER`, `UPPER`, `SUBSTRING`, `TRIM`,
`DATE`, `YEAR`, `MONTH` and `DAY` test truthiness, not null-ness, of
their first argument, so each falsy non-null input — `""`, `0`,
`false` — yields `null` exactly as `null` does (e.g. `LOWER('') = null`
and `SHA2(0) = null`), while `LENGTH` yields `0` on every falsy
input. -/
theorem falsy_behaves_like_null (sha256hex sha512hex md5hex : String → String)
    (dateParse : Js → Option JsDate) (bits start length : Js) :
    alasql.fn.SHA2 sha256hex sha512hex (.str "") bits = Js.null ∧
    alasql.fn.SHA2 sha256hex sha512hex (.num 0) bits = Js.null ∧
    alasql.fn.SHA2 sha256hex sha512hex (.bool false) bits = Js.null ∧
    alasql.fn.MD5 md5hex (.str "") = Js.null ∧
    alasql.fn.MD5 md5hex (.num 0) = Js.null ∧
    alasql.fn.MD5 md5hex (.bool false) = Js.null ∧
    alasql.fn.LOWER (.str "") = Js.null ∧
    alasql.fn.LOWER (.num 0) = Js.null ∧
    alasql.fn.LOWER (.bool false) = Js.null ∧
    alasql.fn.UPPER (.str "") = Js.null ∧
    alasql.fn.UPPER (.num 0) = Js.null ∧
    alasql.fn.UPPER (.bool false) = Js.null ∧
    alasql.fn.SUBSTRING (.str "") start length = Js.null ∧
    alasql.fn.SUBSTRING (.num 0) start length = Js.null ∧
    alasql.fn.SUBSTRING (.bool false) start length = Js.null ∧
    alasql.fn.TRIM (.str "") = Js.null ∧
    alasql.fn.TRIM (.num 0) = Js.null ∧
    alasql.fn.TRIM (.bool false) = Js.null ∧
    alasql.fn.DATE dateParse (.str "") = Except.ok Js.null ∧
    alasql.fn.DATE dateParse (.num 0) = Except.ok Js.null ∧
    alasql.fn.DATE dateParse (.bool false) = Except.ok Js.null ∧
    alasql.fn.YEAR dateParse (.str "") = Js.null ∧
    alasql.fn.YEAR dateParse (.num 0) = Js.null ∧
    alasql.fn.YEAR dateParse (.bool false) = Js.null ∧
    alasql.fn.MONTH dateParse (.str "") = Js.null ∧
    alasql.fn.MONTH dateParse (.num 0) = Js.null ∧
    alasql.fn.MONTH dateParse (.bool false) = Js.null ∧
    alasql.fn.DAY dateParse (.str "") = Js.null ∧
    alasql.fn.DAY dateParse (.num 0) = Js.null ∧
    alasql.fn.DAY dateParse (.bool false) = Js.null ∧
    alasql.fn.LENGTH (.str "") = Js.num 0 ∧
    alasql.fn.LENGTH (.num 0) = Js.num 0 ∧
    alasql.fn.LENGTH (.bool false) = Js.num 0 ∧
    alasql.fn.LENGTH Js.null = Js.num 0 ∧
    alasql.fn.LENGTH Js.undefined = Js.num 0 ∧
    alasql.fn.LENGTH Js.nan = Js.num 0 :=
  ⟨rfl, rfl, rfl, rfl, rfl, rfl, rfl, rfl, rfl, rfl, rfl, rfl, rfl, rfl, rfl,
   rfl, rfl, rfl, rfl, rfl, rfl, rfl, rfl, rfl, rfl, rfl, rfl, rfl, rfl, rfl,
   rfl, rfl, rfl, rfl, rfl, rfl⟩

/-- First-occurrence deduplication starting from a duplicate-free
accumulator stays duplicate-free. -/
theorem foldl_dedupe_nodup (l : List String) : ∀ acc : List String, acc.Nodup →
    (l.foldl (fun acc x => if x ∈ acc then acc else acc ++ [x]) acc).Nodup := by
  induction l with
  | nil => intro acc h; simpa using h
  | cons x xs ih =>
    intro acc h
    simp only [List.foldl_cons]
    by_cases hx : x ∈ acc
    · rw [if_pos hx]; exact ih acc h
    · rw [if_neg hx]
      refine ih _ (h.append (List.nodup_singleton x) ?_)
      intro a ha hax
      rw [List.mem_singleton] at hax
      exact hx (hax ▸ ha)

/-- `dedupeFirst` returns a duplicate-free list. -/
theorem dedupeFirst_nodup (l : List String) : (dedupeFirst l).Nodup :=
  foldl_dedupe_nodup l [] List.nodup_nil

/-- Claim C3: the Table Resolver matches catalog names
case-insensitively in the four syntactic positions (after `FROM`, after
`JOIN`, as a dotted qualifier, as a quoted identifier), includes a
table when any position matches, and returns a deduplicated list; on
`SELECT * FROM orders o JOIN customers c ON o.customer_id = c.id` it
returns exactly `[orders, customers]`. -/
theorem detectTables_four_positions :
    detectTablesFromSQL "SELECT * FROM orders o JOIN customers c ON o.customer_id = c.id" =
      ["orders", "customers"] ∧
    detectTablesFromSQL "select * from ORDERS" = ["orders"] ∧
    detectTablesFromSQL "SELECT products.title FROM products" = ["products"] ∧
    detectTablesFromSQL "SELECT * FROM \"customers\"" = ["customers"] ∧
    detectTablesFromSQL "SELECT 1" = [] ∧
    ∀ sql : String, (detectTablesFromSQL sql).Nodup := by
  refine ⟨by decide, by decide, by decide, by decide, by decide, ?_⟩
  intro sql
  exact dedupeFirst_nodup _

/-- Claim C6: when the Table Resolver finds no known table in the SQL,
the handler answers the terminal 400 no-table error and attempts no
resource fetch. -/
theorem no_table_short_circuits (fetch : String → Except String (List Js))
    (exec : String → List (String × List Js) → Except String Js) (sql : String)
    (h : detectTablesFromSQL sql = []) :
    (handleSqlQuery fetch exec sql).status = 400 ∧
    (handleSqlQuery fetch exec sql).error = some noTableMsg ∧
    (handleSqlQuery fetch exec sql).fetchCalls = [] := by
  simp [handleSqlQuery, h]

/-- Witness for C6 at the concrete SQL `SELECT 1`. -/
theorem no_table_short_circuits_witness :
    detectTablesFromSQL "SELECT 1" = [] ∧
    (handleSqlQuery (fun _ => .ok []) (fun _ _ => .ok (.arr [])) "SELECT 1").status = 400 ∧
    (handleSqlQuery (fun _ => .ok []) (fun _ _ => .ok (.arr [])) "SELECT 1").error = some noTableMsg ∧
    (handleSqlQuery (fun _ => .ok []) (fun _ _ => .ok (.arr [])) "SELECT 1").fetchCalls = [] := by
  have h := no_table_short_circuits (fun _ => .ok []) (fun _ _ => .ok (.arr []))
    "SELECT 1" (by decide)
  exact ⟨by decide, h.1, h.2.1, h.2.2⟩

/-- A list is a prefix of itself followed by anything. -/
theorem isPrefixOf_append_self (n r : List Char) : n.isPrefixOf (n ++ r) = true := by
  induction n with
  | nil => simp [List.isPrefixOf]
  | cons c cs ih => simp [List.isPrefixOf, ih]

/-- The empty needle occurs in every haystack. -/
theorem listContainsSub_nil (hay : List Char) : listContainsSub hay [] = true := by
  cases hay <;> simp [listContainsSub, List.isPrefixOf, List.isEmpty]

/-- Occurrence is preserved by prepending to the haystack. -/
theorem listContainsSub_of_append (pre hay n : List Char)
    (h : listContainsSub hay n = true) : listContainsSub (pre ++ hay) n = true := by
  induction pre with
  | nil => simpa using h
  | cons c cs ih =>
    simp only [List.cons_append, listContainsSub, Bool.or_eq_true]
    exact Or.inr ih

/-- A needle occurs at the head of itself followed by anything. -/
theorem listContainsSub_self_append (n r : List Char) :
    listContainsSub (n ++ r) n = true := by
  cases n with
  | nil => simpa using listContainsSub_nil r
  | cons c cs =>
    simp only [List.cons_append, listContainsSub, Bool.or_eq_true]
    exact Or.inl (isPrefixOf_append_self (c :: cs) r)

/-- Every member of a table-name list occurs in its `join(', ')`. -/
theorem mem_joinComma_contains (t : String) :
    ∀ ts : List String, t ∈ ts → listContainsSub (joinCommaChars ts) t.data = true := by
  intro ts
  induction ts with
  | nil => intro h; cases h
  | cons u us ih =>
    intro h
    rcases List.mem_cons.mp h with rfl | hmem
    · cases us with
      | nil => simpa using listContainsSub_self_append t.data []
      | cons v vs => exact listContainsSub_self_append t.data _
    · cases us with
      | nil => cases hmem
      | cons v vs =>
        exact listContainsSub_of_append u.data _ _
          (listContainsSub_of_append [',', ' '] _ _ (ih hmem))

/-- Occurrence in a string is preserved by prepending. -/
theorem strContains_append_right (a b n : String) (h : strContains b n = true) :
    strContains (a ++ b) n = true :=
  listContainsSub_of_append a.data b.data n.data h

/-- A successful `fetchAll` loads exactly the requested tables, in
order, and records one fetch call per table. -/
theorem fetchAll_ok_keys (fetch : String → Except String (List Js)) :
    ∀ (ts : List String) (td : List (String × List Js)) (calls : List String),
    fetchAll fetch ts = (.ok td, calls) →
    td.map (fun p => p.1) = ts ∧ calls = ts := by
  intro ts
  induction ts with
  | nil =>
    intro td calls h
    simp only [fetchAll, Prod.mk.injEq] at h
    obtain ⟨h1, h2⟩ := h
    cases h1
    exact ⟨rfl, h2.symm⟩
  | cons t ts ih =>
    intro td calls h
    simp only [fetchAll] at h
    cases hf : fetch t with
    | error e => rw [hf] at h; simp at h
    | ok d =>
      rw [hf] at h
      cases hrest : fetchAll fetch ts with
      | mk fst snd =>
        cases fst with
        | error e => rw [hrest] at h; simp at h
        | ok rest =>
          rw [hrest] at h
          simp only [Prod.mk.injEq, Except.ok.injEq] at h
          obtain ⟨h1, h2⟩ := h
          subst h1
          subst h2
          obtain ⟨k1, k2⟩ := ih rest snd hrest
          simp [k1, k2]

/-- Claim C7: when the executor rejects the SQL, the handler answers
400 with `SQL Error: <engine message>`, and when the engine message
signals an unresolved table (`not found`) every loaded table's name
occurs in the returned error message. -/
theorem sql_error_enriched (fetch : String → Except String (List Js))
    (exec : String → List (String × List Js) → Except String Js)
    (sql msg : String) (tableData : List (String × List Js)) (calls : List String)
    (hne : detectTablesFromSQL sql ≠ [])
    (hfetch : fetchAll fetch (detectTablesFromSQL sql) = (.ok tableData, calls))
    (hexec : exec sql tableData = .error msg) :
    (handleSqlQuery fetch exec sql).status = 400 ∧
    (handleSqlQuery fetch exec sql).error = some ("SQL Error: " ++
      (if strContains msg "not found" then
        msg ++ ". Available tables: " ++
          (⟨joinCommaChars (tableData.map (fun p => p.1))⟩ : String)
      else msg)) ∧
    (strContains msg "not found" = true →
      ∀ t ∈ detectTablesFromSQL sql,
        strContains (((handleSqlQuery fetch exec sql).error).getD "") t = true) := by
  have hempty : (detectTablesFromSQL sql).isEmpty = false := by
    cases hd : detectTablesFromSQL sql with
    | nil => exact absurd hd hne
    | cons a l => rfl
  have hresult : handleSqlQuery fetch exec sql =
      { status := 400,
        error := some ("SQL Error: " ++
          (if strContains msg "not found" then
            msg ++ ". Available tables: " ++
              (⟨joinCommaChars (tableData.map (fun p => p.1))⟩ : String)
          else msg)),
        results := [], count := 0, fetchCalls := calls } := by
    simp only [handleSqlQuery, hempty, Bool.false_eq_true, if_false, hfetch, hexec]
  refine ⟨by rw [hresult], by rw [hresult], ?_⟩
  intro hnf t ht
  rw [hresult]
  simp only [Option.getD_some]
  rw [if_pos hnf]
  have hkeys : tableData.map (fun p => p.1) = detectTablesFromSQL sql :=
    (fetchAll_ok_keys fetch _ _ _ hfetch).1
  have h1 : strContains (⟨joinCommaChars (tableData.map (fun p => p.1))⟩ : String) t = true := by
    show listContainsSub (joinCommaChars (tableData.map (fun p => p.1))) t.data = true
    exact mem_joinComma_contains t _ (hkeys ▸ ht)
  exact strContains_append_right "SQL Error: " _ t
    (strContains_append_right (msg ++ ". Available tables: ") _ t h1)

/-- Witness for C7: a concrete run whose engine error mentions
`not found` answers 400 and names the loaded `orders` table. -/
theorem sql_error_enriched_witness :
    (handleSqlQuery (fun _ => .ok []) (fun _ _ => .error "Table xyz not found")
      "SELECT * FROM orders").status = 400 ∧
    strContains (((handleSqlQuery (fun _ => .ok [])
      (fun _ _ => .error "Table xyz not found") "SELECT * FROM orders").error).getD "")
      "orders" = true := by
  have h := sql_error_enriched (fun _ => .ok []) (fun _ _ => .error "Table xyz not found")
    "SELECT * FROM orders" "Table xyz not found" [("orders", [])] ["orders"]
    (by decide) rfl rfl
  exact ⟨h.1, h.2.2 (by decide) "orders" (by decide)⟩

/-- Claim C5: normalizing orders into the derived `order_line_items`
table yields one row per line item per order, and every row's
`order_id` / `order_number` equal the parent order's stripped id and
name. -/
theorem order_line_items_backrefs (data : List Js)
    (_h : data.all (fun o => (liNodes o).isArr) = true) :
    (transformOrderLineItems data).length =
      (data.map (fun o => (nodesList (liNodes o)).length)).sum ∧
    ∀ row ∈ transformOrderLineItems data, ∃ o ∈ data,
      Js.get row "order_id" = jsSplitPop (Js.get o "id") ∧
      Js.get row "order_number" = Js.get o "name" := by
  constructor
  · simp only [transformOrderLineItems, List.length_flatMap]
    refine congrArg List.sum (List.map_congr_left ?_)
    intro o _
    simp [Function.comp]
  · intro row hrow
    simp only [transformOrderLineItems, List.mem_flatMap, List.mem_map] at hrow
    obtain ⟨o, ho, li, hli, hr⟩ := hrow
    subst hr
    exact ⟨o, ho, rfl, rfl⟩

/-- C5 scenario order with one line item of sku `A`, quantity 2. -/
def scenarioOrder1 : Js :=
  .obj [("id", .str "gid://shopify/Order/1001"), ("name", .str "#1001"),
        ("lineItems", .obj [("nodes", .arr [.obj [("sku", .str "A"), ("quantity", .num 2)]])])]

/-- C5 scenario order with one line item of sku `B`, quantity 1. -/
def scenarioOrder2 : Js :=
  .obj [("id", .str "gid://shopify/Order/1002"), ("name", .str "#1002"),
        ("lineItems", .obj [("nodes", .arr [.obj [("sku", .str "B"), ("quantity", .num 1)]])])]

/-- Witness for C5: two orders with one line item each yield exactly two
rows, carrying order ids `1001` and `1002`. -/
theorem order_line_items_backrefs_witness :
    ([scenarioOrder1, scenarioOrder2].all (fun o => (liNodes o).isArr) = true) ∧
    (transformOrderLineItems [scenarioOrder1, scenarioOrder2]).length = 2 ∧
    Js.get ((transformOrderLineItems [scenarioOrder1, scenarioOrder2]).getD 0 (.obj []))
      "order_id" = .str "1001" ∧
    Js.get ((transformOrderLineItems [scenarioOrder1, scenarioOrder2]).getD 1 (.obj []))
      "order_id" = .str "1002" := by
  refine ⟨by decide, ?_, by decide, by decide⟩
  have h := (order_line_items_backrefs [scenarioOrder1, scenarioOrder2] (by decide)).1
  rw [h]
  decide

/-- On the `orders` resource the normalizer is a per-record map, so the
loaded row count equals the fetched record count. -/
theorem transformToTable_orders_length (l : List Js) :
    (transformToTable "orders" l).length = l.length := by
  show (transformOrders l).length = l.length
  simp [transformOrders]

/-- Claim C1 (amended): with the fetch cap in force and a collaborator
that never returns more records than the loop requested
(`min(50, maxRecords - collected)`), the accumulated record list never
exceeds `maxRecords` at any point of the pagination loop, and the row
collection loaded for the base `orders` table therefore has at most
`maxRecords` rows. -/
theorem fetch_cap_bounds_base_tables (maxRecords : Nat) (stream : Nat → Page)
    (hresp : ∀ n, loopDone maxRecords (statesAfter maxRecords stream n) = false →
      (stream n).nodes.length ≤ requestedFirst maxRecords (statesAfter maxRecords stream n))
    (n : Nat) :
    (statesAfter maxRecords stream n).allData.length ≤ maxRecords ∧
    (fetchShopifyData "orders" maxRecords stream n).length ≤ maxRecords := by
  have key : ∀ m, (statesAfter maxRecords stream m).allData.length ≤ maxRecords := by
    intro m
    induction m with
    | zero => simp [statesAfter, initLoopState]
    | succ m ih =>
      simp only [statesAfter, loopStep]
      by_cases hcond : ((statesAfter maxRecords stream m).hasNextPage &&
          decide ((statesAfter maxRecords stream m).allData.length < maxRecords)) = true
      · rw [if_pos hcond]
        have hlt : (statesAfter maxRecords stream m).allData.length < maxRecords :=
          of_decide_eq_true ((Bool.and_eq_true _ _).mp hcond).2
        have hdone : loopDone maxRecords (statesAfter maxRecords stream m) = false := by
          simp [loopDone, hcond]
        have hb := hresp m hdone
        have hmin : requestedFirst maxRecords (statesAfter maxRecords stream m) ≤
            maxRecords - (statesAfter maxRecords stream m).allData.length :=
          Nat.min_le_right _ _
        have hb2 := le_trans hb hmin
        show ((statesAfter maxRecords stream m).allData ++ (stream m).nodes).length ≤ maxRecords
        rw [List.length_append]
        omega
      · rw [if_neg hcond]
        exact ih
  refine ⟨key n, ?_⟩
  unfold fetchShopifyData
  rw [transformToTable_orders_length]
  exact key n

/-- Witness for C1's amended bound at a concrete response stream. -/
theorem fetch_cap_bounds_base_tables_witness :
    (statesAfter 250 (fun _ => ⟨[], false, .null⟩) 3).allData.length ≤ 250 ∧
    (fetchShopifyData "orders" 250 (fun _ => ⟨[], false, .null⟩) 3).length ≤ 250 :=
  fetch_cap_bounds_base_tables 250 (fun _ => ⟨[], false, .null⟩)
    (fun _ _ => Nat.zero_le _) 3

/-- C1 counterexample data: an order whose `lineItems.nodes` holds 50
(empty) line items, the per-order maximum the GraphQL query requests. -/
def bigOrder : Js :=
  .obj [("lineItems", .obj [("nodes", .arr (List.replicate 50 (.obj [])))])]

/-- C1 counterexample page: a single terminal page of 6 such orders
(well within the 50 records the loop requested). -/
def bigPage : Page := ⟨List.replicate 6 bigOrder, false, .null⟩

/-- Counterexample to C1 as stated: with the default cap of 250 and a
well-behaved collaborator (6 ≤ the 50 records requested), the fetch
loop finishes with only 6 orders — within the cap — yet the derived
`order_line_items` collection loaded into the executor holds 300 rows,
exceeding 250; a `SELECT *` over it therefore returns more than 250
rows. -/
theorem order_line_items_exceeds_cap :
    bigPage.nodes.length ≤ requestedFirst 250 initLoopState ∧
    loopDone 250 (statesAfter 250 (fun _ => bigPage) 1) = true ∧
    (statesAfter 250 (fun _ => bigPage) 1).allData.length ≤ 250 ∧
    (fetchShopifyData "order_line_items" 250 (fun _ => bigPage) 1).length = 300 ∧
    250 < 300 :=
  ⟨by decide, by decide, by decide, by decide, by decide⟩

/-- Counterexample to C9 as stated: a collaborator that keeps answering
`nodes: [], hasNextPage: true` leaves the loop guard true even after
250 page requests (the configured record cap), so the loop's request
count is not bounded by the cap. -/
theorem empty_pages_defeat_termination :
    loopDone 250 (statesAfter 250 (fun _ => ⟨[], true, .null⟩) 250) = false := by
  decide

/-- Claim C9 (amended): whenever every page response carries at least
one node, the pagination loop is done after at most `maxRecords` page
requests. -/
theorem pagination_terminates_within_cap (maxRecords : Nat) (stream : Nat → Page)
    (h : ∀ i, (stream i).nodes ≠ []) :
    loopDone maxRecords (statesAfter maxRecords stream maxRecords) = true := by
  have key : ∀ n, loopDone maxRecords (statesAfter maxRecords stream n) = true ∨
      n ≤ (statesAfter maxRecords stream n).allData.length := by
    intro n
    induction n with
    | zero => exact Or.inr (Nat.zero_le _)
    | succ n ih =>
      cases hd : loopDone maxRecords (statesAfter maxRecords stream n) with
      | true =>
        left
        have hfix : statesAfter maxRecords stream (n + 1) =
            statesAfter maxRecords stream n := by
          simp only [statesAfter, loopStep]
          rw [if_neg]
          intro hc
          rw [loopDone, hc] at hd
          cases hd
        rw [hfix]
        exact hd
      | false =>
        right
        have hcond : ((statesAfter maxRecords stream n).hasNextPage &&
            decide ((statesAfter maxRecords stream n).allData.length < maxRecords)) = true := by
          have := congrArg Bool.not hd
          simpa [loopDone] using this
        have hn : n ≤ (statesAfter maxRecords stream n).allData.length := by
          rcases ih with h1 | h1
          · rw [h1] at hd; cases hd
          · exact h1
        have hnodes : 1 ≤ (stream n).nodes.length := by
          cases hne : (stream n).nodes with
          | nil => exact absurd hne (h n)
          | cons a l => simp
        simp only [statesAfter, loopStep]
        rw [if_pos hcond]
        show n + 1 ≤ ((statesAfter maxRecords stream n).allData ++ (stream n).nodes).length
        rw [List.length_append]
        omega
  rcases key maxRecords with h1 | h1
  · exact h1
  · have hge : ¬ ((statesAfter maxRecords stream maxRecords).allData.length < maxRecords) :=
      Nat.not_lt.mpr h1
    simp [loopDone, hge]

/-- Witness for C9's amended bound: one-node terminal pages finish
within the cap. -/
theorem pagination_terminates_within_cap_witness :
    (∀ i : Nat, ((fun _ => (⟨[Js.null], false, .null⟩ : Page)) i).nodes ≠ []) ∧
    loopDone 250 (statesAfter 250 (fun _ => ⟨[Js.null], false, .null⟩) 250) = true := by
  constructor
  · intro i
    exact List.cons_ne_nil _ _
  · exact pagination_terminates_within_cap 250 (fun _ => ⟨[Js.null], false, .null⟩)
      (fun i => List.cons_ne_nil _ _)

/-- Counterexample to C2 as stated: normalizing an orders record with
every optional nested field absent binds the declared nullable `email`
column to JavaScript `undefined`, not to `null` as the claim's
documented defaults require. -/
theorem absent_field_normalizes_to_undefined :
    Js.get ((transformToTable "orders" [.obj []]).getD 0 (.obj [])) "email" = Js.undefined ∧
    Js.get ((transformToTable "orders" [.obj []]).getD 0 (.obj [])) "email" ≠ Js.null :=
  ⟨by decide, by decide⟩

/-- Claim C2 (amended): for every supported resource, normalizing a
record with all optional nested fields absent yields a row in which
every declared column key is present — so all rows of one table share
one shape — where money amounts and the `nodes`-length counts default
to `0`, `product_variants.compare_at_price` defaults to `null`,
`customers.full_name` and the synthesized `order_sessions.id` /
`visit_type` default to strings, and every remaining absent field is
bound to the JavaScript `undefined` marker (not `null`). -/
theorem normalization_default_shapes :
    transformToTable "orders" [.obj []] =
      [.obj [("id", .undefined), ("order_number", .undefined), ("email", .undefined),
             ("created_at", .undefined), ("updated_at", .undefined), ("cancelled_at", .undefined),
             ("closed_at", .undefined), ("processed_at", .undefined), ("total_price", .num 0),
             ("subtotal_price", .num 0), ("total_tax", .num 0), ("total_shipping", .num 0),
             ("total_discounts", .num 0), ("total_refunded", .num 0), ("currency", .undefined),
             ("financial_status", .undefined), ("fulfillment_status", .undefined),
             ("fulfillable", .undefined), ("note", .undefined), ("tags", .undefined),
             ("source_name", .undefined), ("source_identifier", .undefined),
             ("journey_ready", .undefined), ("days_to_conversion", .undefined),
             ("touchpoints_count", .undefined), ("first_visit_at", .undefined),
             ("first_visit_landing_page", .undefined), ("first_visit_referrer", .undefined),
             ("first_visit_source", .undefined), ("first_visit_source_type", .undefined),
             ("first_visit_referral_code", .undefined), ("first_utm_source", .undefined),
             ("first_utm_medium", .undefined), ("first_utm_campaign", .undefined),
             ("first_utm_content", .undefined), ("first_utm_term", .undefined),
             ("last_visit_at", .undefined), ("last_visit_landing_page", .undefined),
             ("last_visit_referrer", .undefined), ("last_visit_source", .undefined),
             ("last_visit_source_type", .undefined), ("last_visit_referral_code", .undefined),
             ("last_utm_source", .undefined), ("last_utm_medium", .undefined),
             ("last_utm_campaign", .undefined), ("last_utm_content", .undefined),
             ("last_utm_term", .undefined), ("customer_id", .undefined),
             ("customer_email", .undefined), ("customer_first_name", .undefined),
             ("customer_last_name", .undefined), ("customer_phone", .undefined),
             ("shipping_address1", .undefined), ("shipping_city", .undefined),
             ("shipping_province", .undefined), ("shipping_country", .undefined),
             ("shipping_zip", .undefined), ("billing_address1", .undefined),
             ("billing_city", .undefined), ("billing_province", .undefined),
             ("billing_country", .undefined), ("billing_zip", .undefined),
             ("line_items_count", .num 0)]] ∧
    transformToTable "order_line_items" [.obj [("lineItems", .obj [("nodes", .arr [.obj []])])]] =
      [.obj [("id", .undefined), ("order_id", .undefined), ("order_number", .undefined),
             ("title", .undefined), ("quantity", .undefined), ("sku", .undefined),
             ("vendor", .undefined), ("unit_price", .num 0), ("discounted_price", .num 0),
             ("variant_id", .undefined), ("variant_title", .undefined), ("product_id", .undefined),
             ("product_title", .undefined)]] ∧
    transformToTable "order_sessions"
        [.obj [("customerJourneySummary", .obj [("firstVisit", .obj [])])]] =
      [.obj [("id", .str "undefined-first"), ("order_id", .undefined),
             ("order_number", .undefined), ("visit_type", .str "first"),
             ("occurred_at", .undefined), ("landing_page", .undefined),
             ("referrer_url", .undefined), ("source", .undefined), ("source_type", .undefined),
             ("referral_code", .undefined), ("utm_source", .undefined), ("utm_medium", .undefined),
             ("utm_campaign", .undefined), ("utm_content", .undefined), ("utm_term", .undefined)]] ∧
    transformToTable "products" [.obj []] =
      [.obj [("id", .undefined), ("title", .undefined), ("handle", .undefined),
             ("description", .undefined), ("vendor", .undefined), ("product_type", .undefined),
             ("tags", .undefined), ("status", .undefined), ("created_at", .undefined),
             ("updated_at", .undefined), ("published_at", .undefined),
             ("total_inventory", .undefined), ("tracks_inventory", .undefined),
             ("min_price", .num 0), ("max_price", .num 0), ("currency", .undefined),
             ("options", .undefined), ("image_url", .undefined), ("seo_title", .undefined),
             ("seo_description", .undefined), ("collections", .undefined),
             ("variants_count", .num 0)]] ∧
    transformToTable "product_variants" [.obj [("variants", .obj [("nodes", .arr [.obj []])])]] =
      [.obj [("id", .undefined), ("product_id", .undefined), ("product_title", .undefined),
             ("title", .undefined), ("sku", .undefined), ("barcode", .undefined),
             ("price", .num 0), ("compare_at_price", .null),
             ("inventory_quantity", .undefined), ("available_for_sale", .undefined),
             ("weight", .undefined), ("weight_unit", .undefined), ("options", .undefined),
             ("inventory_item_id", .undefined), ("inventory_tracked", .undefined)]] ∧
    transformToTable "customers" [.obj []] =
      [.obj [("id", .undefined), ("email", .undefined), ("first_name", .undefined),
             ("last_name", .undefined), ("full_name", .str ""), ("phone", .undefined),
             ("created_at", .undefined), ("updated_at", .undefined), ("note", .undefined),
             ("tags", .undefined), ("state", .undefined), ("tax_exempt", .undefined),
             ("verified_email", .undefined), ("valid_email", .undefined),
             ("orders_count", .undefined), ("total_spent", .num 0), ("currency", .undefined),
             ("address1", .undefined), ("address2", .undefined), ("city", .undefined),
             ("province", .undefined), ("province_code", .undefined), ("country", .undefined),
             ("country_code", .undefined), ("zip", .undefined), ("company", .undefined)]] ∧
    transformToTable "collections" [.obj []] =
      [.obj [("id", .undefined), ("title", .undefined), ("handle", .undefined),
             ("description", .undefined), ("sort_order", .undefined),
             ("products_count", .undefined), ("updated_at", .undefined),
             ("image_url", .undefined), ("seo_title", .undefined), ("seo_description", .undefined)]] ∧
    transformToTable "inventory_items" [.obj []] =
      [.obj [("id", .undefined), ("sku", .undefined), ("tracked", .undefined),
             ("created_at", .undefined), ("updated_at", .undefined),
             ("country_of_origin", .undefined), ("province_of_origin", .undefined),
             ("hs_code", .undefined), ("variant_id", .undefined), ("variant_title", .undefined),
             ("product_id", .undefined), ("product_title", .undefined)]] ∧
    transformToTable "inventory_levels"
        [.obj [("inventoryLevels", .obj [("nodes", .arr [.obj []])])]] =
      [.obj [("id", .undefined), ("inventory_item_id", .undefined), ("sku", .undefined),
             ("location_id", .undefined), ("location_name", .undefined),
             ("available", .undefined), ("product_title", .undefined),
             ("variant_title", .undefined)]] ∧
    transformToTable "locations" [.obj []] =
      [.obj [("id", .undefined), ("name", .undefined), ("address1", .undefined),
             ("address2", .undefined), ("city", .undefined), ("province", .undefined),
             ("country", .undefined), ("zip", .undefined), ("is_active", .undefined),
             ("fulfills_online_orders", .undefined), ("has_active_inventory", .undefined)]] ∧
    transformToTable "draft_orders" [.obj []] =
      [.obj [("id", .undefined), ("name", .undefined), ("email", .undefined),
             ("created_at", .undefined), ("updated_at", .undefined), ("status", .undefined),
             ("total_price", .num 0), ("subtotal_price", .num 0),
             ("total_tax", .num 0), ("currency", .undefined), ("customer_id", .undefined),
             ("customer_email", .undefined), ("customer_first_name", .undefined),
             ("customer_last_name", .undefined), ("line_items_count", .num 0)]] ∧
    transformToTable "shop" [.obj []] =
      [.obj [("id", .undefined), ("name", .undefined), ("email", .undefined),
             ("myshopify_domain", .undefined), ("domain", .undefined), ("currency", .undefined),
             ("weight_unit", .undefined), ("timezone", .undefined), ("plan_name", .undefined),
             ("is_partner_dev", .undefined), ("is_plus", .undefined)]] :=
  ⟨by decide, by decide, by decide, by decide, by decide, by decide, by decide,
   by decide, by decide, by decide, by decide, by decide⟩
